import Mathlib

/-
  Verification of the key-pair derivation core of `parity-crypto`
  (`src/parity-crypto/src/publickey/keypair.rs`).

  The file shallowly embeds the Rust code: bytes are `Nat` values kept
  below 256, byte strings are `List Nat`, fallible operations return
  `Except Error _`, and operations that could panic in Rust (slice
  indexing, `copy_from_slice`) return `Option _`, with `none` standing
  for a panic.  The external capabilities that the crate consumes — the
  secp256k1 curve library and the Keccak-256 hash — are not part of the
  translated source file, so they are modelled from the specification
  (spec §4.1–§4.3 and the glossary), as executable Lean functions.
-/

namespace ParityCrypto

/-- Big-endian interpretation of a byte string as a natural number. -/
def bytesToNat (bs : List Nat) : Nat :=
  bs.foldl (fun a b => a * 256 + b % 256) 0

/-- Helper for fixed-width big-endian serialization (fuel = remaining bytes). -/
def natToBytesAux : Nat → Nat → List Nat → List Nat
  | 0, _, acc => acc
  | f + 1, k, acc => natToBytesAux f (k / 256) (k % 256 :: acc)

/-- Fixed-width big-endian serialization of a natural number. -/
def natToBytes (len k : Nat) : List Nat := natToBytesAux len k []

/-! ### Keccak-256, modelled from the spec

Modelled from the spec: §4.3 names "a 256-bit one-way hash (the same hash
family used natively by the target ledger)", i.e. Keccak-256 with rate
1088 bits and multi-rate padding.  The state is a flat list of 25 lanes of
64 bits, lane `i` holding column `i % 5`, row `i / 5`. -/

/-- All 64-bit lanes are kept below `2 ^ 64` via this mask. -/
def u64mask : Nat := 18446744073709551615

/-- 64-bit left rotation. -/
def rotl64 (x n : Nat) : Nat := ((x <<< n) ||| (x >>> (64 - n))) &&& u64mask

/-- The 24 Keccak-f[1600] round constants. -/
def keccakRC : List Nat :=
  [0x1, 0x8082, 0x800000000000808a, 0x8000000080008000,
   0x808b, 0x80000001, 0x8000000080008081, 0x8000000000008009,
   0x8a, 0x88, 0x80008009, 0x8000000a,
   0x8000808b, 0x800000000000008b, 0x8000000000008089, 0x8000000000008003,
   0x8000000000008002, 0x8000000000000080, 0x800a, 0x800000008000000a,
   0x8000000080008081, 0x8000000000008080, 0x80000001, 0x8000000080008008]

/-- Source lane index of the combined rho-pi step, per destination lane. -/
def piSrc : List Nat :=
  [0, 6, 12, 18, 24, 3, 9, 10, 16, 22, 1, 7, 13, 19, 20,
   4, 5, 11, 17, 23, 2, 8, 14, 15, 21]

/-- Rotation amount of the combined rho-pi step, per destination lane. -/
def piRot : List Nat :=
  [0, 44, 43, 21, 14, 28, 20, 3, 45, 61, 1, 6, 25, 8, 18,
   27, 36, 10, 15, 56, 62, 55, 39, 41, 2]

/-- Keccak theta step. -/
def theta (A : List Nat) : List Nat :=
  let C := (List.range 5).map (fun x =>
    A.getD x 0 ^^^ A.getD (x + 5) 0 ^^^ A.getD (x + 10) 0 ^^^
    A.getD (x + 15) 0 ^^^ A.getD (x + 20) 0)
  let D := (List.range 5).map (fun x =>
    C.getD ((x + 4) % 5) 0 ^^^ rotl64 (C.getD ((x + 1) % 5) 0) 1)
  (List.range 25).map (fun i => A.getD i 0 ^^^ D.getD (i % 5) 0)

/-- Keccak combined rho and pi steps. -/
def rhoPi (A : List Nat) : List Nat :=
  (List.range 25).map (fun j => rotl64 (A.getD (piSrc.getD j 0) 0) (piRot.getD j 0))

/-- Keccak chi step. -/
def chi (A : List Nat) : List Nat :=
  (List.range 25).map (fun j =>
    A.getD j 0 ^^^
    ((A.getD ((j % 5 + 1) % 5 + 5 * (j / 5)) 0 ^^^ u64mask) &&&
     A.getD ((j % 5 + 2) % 5 + 5 * (j / 5)) 0))

/-- One Keccak-f round (theta, rho, pi, chi, iota). -/
def keccakRound (A : List Nat) (rc : Nat) : List Nat :=
  let B := chi (rhoPi (theta A))
  (B.getD 0 0 ^^^ rc) :: B.drop 1

/-- The Keccak-f[1600] permutation: 24 rounds. -/
def keccakF (A : List Nat) : List Nat := keccakRC.foldl keccakRound A

/-- Little-endian interpretation of up to 8 bytes as one 64-bit lane. -/
def laneOfBytes (bs : List Nat) : Nat :=
  bs.foldr (fun b a => a * 256 + b % 256) 0

/-- Little-endian serialization of one 64-bit lane into 8 bytes. -/
def laneToBytes (x : Nat) : List Nat :=
  [x % 256, x / 256 % 256, x / 65536 % 256, x / 16777216 % 256,
   x / 4294967296 % 256, x / 1099511627776 % 256,
   x / 281474976710656 % 256, x / 72057594037927936 % 256]

/-- Xor one 136-byte rate block into the first 17 lanes of the state. -/
def xorIntoState (A block : List Nat) : List Nat :=
  (List.range 25).map (fun i => A.getD i 0 ^^^ laneOfBytes ((block.drop (8 * i)).take 8))

/-- Keccak multi-rate padding for a message of the given length (rate 136). -/
def keccakPad (len : Nat) : List Nat :=
  let m := len % 136
  if m = 135 then [129] else 1 :: (List.replicate (134 - m) 0 ++ [128])

/-- Absorb the padded message block by block (fuel = number of blocks). -/
def absorb : Nat → List Nat → List Nat → List Nat
  | 0, A, _ => A
  | f + 1, A, bytes => absorb f (keccakF (xorIntoState A (bytes.take 136))) (bytes.drop 136)

/-- Modelled from the spec: the one-way 256-bit hash capability (Keccak-256)
consumed by the crate via the `Keccak256` trait, which is not part of the
translated source.  Absorbs the padded input and squeezes 32 bytes. -/
def keccak256 (input : List Nat) : List Nat :=
  let padded := input ++ keccakPad input.length
  let A := absorb (padded.length / 136) (List.replicate 25 0) padded
  laneToBytes (A.getD 0 0) ++ laneToBytes (A.getD 1 0) ++
  laneToBytes (A.getD 2 0) ++ laneToBytes (A.getD 3 0)

/-! ### The secp256k1 curve capability, modelled from the spec

Modelled from the spec: §4.1–§4.2 and the glossary describe the external
elliptic-curve capability: the secp256k1 group order, scalar validation
against it, scalar-times-generator multiplication, and uncompressed point
serialization.  Point arithmetic is done in Jacobian coordinates over the
base field. -/

/-- The secp256k1 base field prime `2 ^ 256 - 2 ^ 32 - 977`. -/
def secp_p : Nat :=
  115792089237316195423570985008687907853269984665640564039457584007908834671663

/-- The secp256k1 group order n (spec §4.1). -/
def secp_n : Nat :=
  115792089237316195423570985008687907852837564279074904382605163141518161494337

/-- x-coordinate of the secp256k1 generator G. -/
def secp_gx : Nat :=
  55066263022277343669578718895168534326250603453777594175500187360389116729240

/-- y-coordinate of the secp256k1 generator G. -/
def secp_gy : Nat :=
  32670510020758816978083085130507043184471273380659243275938904335757337482424

/-- Multiplication in the secp256k1 base field. -/
def mulm (a b : Nat) : Nat := a * b % secp_p

/-- Addition in the secp256k1 base field. -/
def addm (a b : Nat) : Nat := (a + b) % secp_p

/-- Subtraction in the secp256k1 base field. -/
def subm (a b : Nat) : Nat := (a + (secp_p - b % secp_p)) % secp_p

/-- Binary modular exponentiation in the base field (fuel = bit count). -/
def powmAux : Nat → Nat → Nat → Nat → Nat
  | 0, _, _, acc => acc
  | f + 1, a, b, acc =>
    powmAux f (mulm a a) (b / 2) (if b % 2 = 1 then mulm acc a else acc)

/-- Modular exponentiation in the base field. -/
def powm (a b : Nat) : Nat := powmAux 256 (a % secp_p) b 1

/-- Modular inverse in the base field via Fermat's little theorem. -/
def invm (a : Nat) : Nat := powm a (secp_p - 2)

/-- Doubling of a Jacobian point (Z = 0 encodes the point at infinity). -/
def jacDouble : Nat × Nat × Nat → Nat × Nat × Nat
  | (X, Y, Z) =>
    let YY := mulm Y Y
    let S := mulm (mulm (mulm 4 X) Y) Y
    let M := mulm (mulm 3 X) X
    let X2 := subm (mulm M M) (addm S S)
    let Y2 := subm (mulm M (subm S X2)) (mulm 8 (mulm YY YY))
    (X2, Y2, mulm (mulm 2 Y) Z)

/-- General addition of two Jacobian points. -/
def jacAdd (P Q : Nat × Nat × Nat) : Nat × Nat × Nat :=
  match P, Q with
  | (X1, Y1, Z1), (X2, Y2, Z2) =>
    if Z1 % secp_p = 0 then (X2, Y2, Z2)
    else if Z2 % secp_p = 0 then (X1, Y1, Z1)
    else
      let Z1Z1 := mulm Z1 Z1
      let Z2Z2 := mulm Z2 Z2
      let U1 := mulm X1 Z2Z2
      let U2 := mulm X2 Z1Z1
      let S1 := mulm (mulm Y1 Z2Z2) Z2
      let S2 := mulm (mulm Y2 Z1Z1) Z1
      let H := subm U2 U1
      let R := subm S2 S1
      if H = 0 then
        if R = 0 then jacDouble (X1, Y1, Z1) else (0, 1, 0)
      else
        let HH := mulm H H
        let HHH := mulm HH H
        let V := mulm U1 HH
        let X3 := subm (subm (mulm R R) HHH) (mulm 2 V)
        let Y3 := subm (mulm R (subm V X3)) (mulm S1 HHH)
        (X3, Y3, mulm (mulm H Z1) Z2)

/-- The double-and-add loop state: remaining scalar bits, accumulator,
and the current power-of-two multiple of the generator. -/
abbrev ECState := Nat × (Nat × Nat × Nat) × (Nat × Nat × Nat)

/-- One least-significant-bit-first double-and-add step. -/
def ecStep : ECState → ECState
  | (k, acc, addend) =>
    (k / 2, if k % 2 = 1 then jacAdd acc addend else acc, jacDouble addend)

/-- Iterate `ecStep` (fuel = number of scalar bits still to process). -/
def ecLoop : Nat → ECState → ECState
  | 0, s => s
  | f + 1, s => ecLoop f (ecStep s)

/-- Conversion from Jacobian to affine coordinates; `none` at infinity. -/
def jacToAffine (P : Nat × Nat × Nat) : Option (Nat × Nat) :=
  match P with
  | (X, Y, Z) =>
    if Z % secp_p = 0 then none
    else
      let zi := invm Z
      let zi2 := mulm zi zi
      some (mulm X zi2, mulm (mulm Y zi2) zi)

/-- Scalar multiplication `k * G` on secp256k1, in affine coordinates. -/
def ecMulG (k : Nat) : Option (Nat × Nat) :=
  jacToAffine (ecLoop 256 (k, (0, 1, 0), (secp_gx, secp_gy, 1))).2.1

/-! ### The secp256k1 library types used by `keypair.rs` -/

/-- The error type of the public-key module (spec §7). -/
inductive Error
  | InvalidSecret
  | CurveComputationError
deriving DecidableEq

/-- Equality of `Except` results is decidable componentwise. -/
instance decEqExcept {ε α : Type} [DecidableEq ε] [DecidableEq α] : DecidableEq (Except ε α)
  | Except.ok x, Except.ok y =>
    if h : x = y then Decidable.isTrue (congrArg Except.ok h)
    else Decidable.isFalse (fun hh => h (Except.ok.inj hh))
  | Except.error x, Except.error y =>
    if h : x = y then Decidable.isTrue (congrArg Except.error h)
    else Decidable.isFalse (fun hh => h (Except.error.inj hh))
  | Except.ok _, Except.error _ => Decidable.isFalse (fun hh => Except.noConfusion hh)
  | Except.error _, Except.ok _ => Decidable.isFalse (fun hh => Except.noConfusion hh)

/-- A secp256k1 library secret key (`secp256k1::key::SecretKey`): a scalar. -/
structure SecretKey where
  scalar : Nat
deriving DecidableEq

/-- A secp256k1 library public key (`secp256k1::key::PublicKey`): a curve point. -/
structure PublicKey where
  x : Nat
  y : Nat
deriving DecidableEq

/-- Modelled from the spec: §4.1 Scalar Validator — `SecretKey::from_slice`
accepts exactly 32 bytes whose big-endian value lies in `[1, n - 1]` and
fails with `InvalidSecret` otherwise (wrong length, zero, or at least n). -/
def SecretKey.from_slice (bs : List Nat) : Except Error SecretKey :=
  if bs.length = 32 ∧ 1 ≤ bytesToNat bs ∧ bytesToNat bs < secp_n
  then Except.ok ⟨bytesToNat bs⟩
  else Except.error Error.InvalidSecret

/-- Modelled from the spec: §4.2 Point Deriver — `PublicKey::from_secret_key`
computes scalar times generator, surfacing `CurveComputationError` when the
capability rejects the scalar instead of returning a point. -/
def PublicKey.from_secret_key (s : SecretKey) : Except Error PublicKey :=
  if 1 ≤ s.scalar ∧ s.scalar < secp_n then
    match ecMulG s.scalar with
    | some (x, y) => Except.ok ⟨x, y⟩
    | none => Except.error Error.CurveComputationError
  else Except.error Error.CurveComputationError

/-- Modelled from the spec: §4.2 — uncompressed point serialization is one
tag byte followed by the 32-byte x and 32-byte y coordinates (65 bytes);
the compressed form is a parity tag byte followed by x. -/
def serialize_vec (pk : PublicKey) (compressed : Bool) : List Nat :=
  if compressed then (if pk.y % 2 = 0 then 2 else 3) :: natToBytes 32 pk.x
  else 4 :: (natToBytes 32 pk.x ++ natToBytes 32 pk.y)

/-! ### Byte-string types and panic-modelled slice primitives -/

/-- `Secret` (H256): 32 bytes. -/
abbrev Secret := List Nat

/-- `Public` (H512): 64 bytes. -/
abbrev Public := List Nat

/-- `Address` (H160): 20 bytes. -/
abbrev Address := List Nat

/-- Rust `&xs[i..]`: panics (`none`) when `i` is out of range. -/
def sliceFrom (xs : List Nat) (i : Nat) : Option (List Nat) :=
  if i ≤ xs.length then some (xs.drop i) else none

/-- Rust `&xs[i..j]`: panics (`none`) when the range is out of bounds. -/
def sliceRange (xs : List Nat) (i j : Nat) : Option (List Nat) :=
  if i ≤ j ∧ j ≤ xs.length then some ((xs.take j).drop i) else none

/-- Rust `dst.copy_from_slice(src)`: panics (`none`) on length mismatch,
otherwise the destination becomes a copy of the source. -/
def copy_from_slice (dst src : List Nat) : Option (List Nat) :=
  if src.length = dst.length then some src else none

/-- `Address::zero()`: 20 zero bytes. -/
def Address.zero : Address := List.replicate 20 0

/-- `Public::default()`: 64 zero bytes. -/
def Public.default : Public := List.replicate 64 0

/-- Modelled from the spec: §4.1 — `Secret::import_key` runs the Scalar
Validator on the byte string and on success wraps the validated bytes. -/
def Secret.import_key (bs : List Nat) : Except Error Secret :=
  match SecretKey.from_slice bs with
  | Except.ok _ => Except.ok bs
  | Except.error e => Except.error e

/-- `Secret::from(sec: SecretKey)`: the scalar's 32 big-endian bytes. -/
def Secret.from_key (sec : SecretKey) : Secret := natToBytes 32 sec.scalar

/-! ### The translated source: `keypair.rs` -/

/-- `public_to_address`: hash the 64-byte public key with Keccak-256 and
copy bytes 12.. of the digest into a zeroed 20-byte address. -/
def public_to_address (public : Public) : Option Address :=
  let hash := keccak256 public
  match sliceFrom hash 12 with
  | none => none
  | some tail => copy_from_slice Address.zero tail

/-- `KeyPair`: a secret together with the derived public key. -/
structure KeyPair where
  secret : Secret
  public : Public
deriving DecidableEq

/-- `KeyPair::from_secret`: validate the secret with the curve library,
derive the public point, serialize it uncompressed, and keep bytes 1..65. -/
def KeyPair.from_secret (secret : Secret) : Option (Except Error KeyPair) :=
  match SecretKey.from_slice secret with
  | Except.error e => some (Except.error e)
  | Except.ok s =>
    match PublicKey.from_secret_key s with
    | Except.error e => some (Except.error e)
    | Except.ok pub_key =>
      let serialized := serialize_vec pub_key false
      match sliceRange serialized 1 65 with
      | none => none
      | some sl =>
        match copy_from_slice Public.default sl with
        | none => none
        | some public => some (Except.ok ⟨secret, public⟩)

/-- `KeyPair::from_secret_slice`: import the slice as a secret, then
`from_secret`. -/
def KeyPair.from_secret_slice (slice : List Nat) : Option (Except Error KeyPair) :=
  match Secret.import_key slice with
  | Except.error e => some (Except.error e)
  | Except.ok sec => KeyPair.from_secret sec

/-- `KeyPair::from_keypair`: trusted import of an already validated pair;
serializes the point uncompressed and keeps bytes 1..65, no validation. -/
def KeyPair.from_keypair (sec : SecretKey) (publ : PublicKey) : Option KeyPair :=
  let serialized := serialize_vec publ false
  let secret := Secret.from_key sec
  match sliceRange serialized 1 65 with
  | none => none
  | some sl =>
    match copy_from_slice Public.default sl with
    | none => none
    | some public => some ⟨secret, public⟩

/-- `KeyPair::address`: recomputes `public_to_address` on the stored public
key at every call. -/
def KeyPair.address (kp : KeyPair) : Option Address := public_to_address kp.public

/-! ### The `Display` implementation -/

/-- The lower-case hexadecimal digit for a value below 16, by character
code: 48 is the code of the zero digit and 87 + 10 the code of the letter
a, as in the `LowerHex` digit table. -/
def hexDigit (n : Nat) : Char := Char.ofNat (if n < 10 then 48 + n else 87 + n)

/-- The sixteen lower-case hexadecimal digit characters. -/
def hexChars : List Char := (List.range 16).map hexDigit

/-- The two lower-case hex characters of one byte (`LowerHex` formatting). -/
def byteToHexChars (b : Nat) : List Char := [hexDigit (b / 16 % 16), hexDigit (b % 16)]

/-- Lower-case hex rendering of a byte string, as characters. -/
def toHexChars : List Nat → List Char
  | [] => []
  | b :: t => byteToHexChars b ++ toHexChars t

/-- Lower-case hex rendering of a byte string (the `{:x}` format). -/
def toHex (bs : List Nat) : String := String.mk (toHexChars bs)

/-- The characters written by `Display for KeyPair`: two `writeln!` lines
and a final `write!` line with no trailing newline. -/
def KeyPair.displayChars (kp : KeyPair) : Option (List Char) :=
  match kp.address with
  | none => none
  | some a =>
    some (("secret:  ".toList ++ toHexChars kp.secret ++ ['\n']) ++
          (("public:  ".toList ++ toHexChars kp.public ++ ['\n']) ++
           ("address: ".toList ++ toHexChars a)))

/-- `Display for KeyPair` as a string. -/
def KeyPair.display (kp : KeyPair) : Option String :=
  (KeyPair.displayChars kp).map String.mk

/-! ### Concrete values used by the repository test `keypair_display` -/

/-- The secret of the repository test `keypair_display` (hex a100df7a...). -/
def c2secret : Secret :=
  [161, 0, 223, 122, 4, 142, 80, 237, 48, 142, 166, 150, 220, 96, 2, 21, 9, 129, 65, 203, 57, 30, 149, 39, 50, 157, 242, 137, 249, 56, 63, 101]

/-- The public key the test expects for `c2secret` (hex 8ce0db0b...). -/
def c2public : Public :=
  [140, 224, 219, 11, 3, 89, 255, 197, 134, 107, 166, 25, 3, 204, 37, 24, 195, 103, 94, 242, 207, 56, 10, 126, 84, 189, 231, 234, 32, 230, 250, 26, 180, 91, 118, 23, 52, 108, 209, 27, 118, 16, 0, 30, 230, 174, 91, 1, 85, 196, 28, 173, 149, 39, 203, 205, 255, 68, 236, 103, 132, 137, 67, 164]

/-- The address the test expects for `c2secret` (hex 5b073e92...34a). -/
def c2address : Address :=
  [91, 7, 62, 146, 51, 148, 75, 94, 114, 158, 70, 214, 24, 240, 216, 237, 243, 217, 195, 74]

/-- The 32-byte secret with scalar value 1. -/
def secretOne : Secret :=
  [0, 0, 0, 0, 0, 0, 0, 0, 0, 0, 0, 0, 0, 0, 0, 0, 0, 0, 0, 0, 0, 0, 0, 0, 0, 0, 0, 0, 0, 0, 0, 1]

/-- The 64-byte public key of scalar 1: the generator's coordinates. -/
def publicOne : Public :=
  [121, 190, 102, 126, 249, 220, 187, 172, 85, 160, 98, 149, 206, 135, 11, 7, 2, 155, 252, 219, 45, 206, 40, 217, 89, 242, 129, 91, 22, 248, 23, 152, 72, 58, 218, 119, 38, 163, 196, 101, 93, 164, 251, 252, 14, 17, 8, 168, 253, 23, 180, 72, 166, 133, 84, 25, 156, 71, 208, 143, 251, 16, 212, 184]

/-- The key pair derived from `secretOne`. -/
def kpOne : KeyPair := ⟨secretOne, publicOne⟩

/-- A concrete key pair used to witness the display-format theorem. -/
def kpW : KeyPair := ⟨List.replicate 32 5, List.replicate 64 6⟩

/-- A key pair with the all-sevens public key and the all-zeros secret. -/
def kpA : KeyPair := ⟨List.replicate 32 0, List.replicate 64 7⟩

/-- A key pair with the same public key as `kpA` but a different secret. -/
def kpB : KeyPair := ⟨List.replicate 32 1, List.replicate 64 7⟩


/-! ### Intermediate double-and-add states, 32 loop steps apart

These literal states let the 256-step scalar multiplications be checked by
kernel evaluation in shallow 32-step windows. -/

/-- The scalar of `c2secret`. -/
def c2k : Nat := 72823911000934510838574246059473947887207793297873821076164090745709315768165

/-- x-coordinate of `c2k * G`. -/
def c2x : Nat := 63721084323529973294710904475970500651236995823162955539823456039537706727962

/-- y-coordinate of `c2k * G`. -/
def c2y : Nat := 81577910859551481324422588863029946293841515708952445655962044560394250961828

/-- Double-and-add state after an initial segment of the loop (`c2Win1`). -/
def c2Win1 : ECState :=
  (16955638071739699421118536512244946297073688660253263329193948476041, (61913385150675812875294021833411284935466555188196765658630007604449063259582, 31882804945095914534377590372930943031075452015848289434071730784191884823486, 58863700090785678925756059088402578407118585699502950524004093722353859610436), (635743120120718229479015275716769390067963833145960137873085447707634208509, 83127500062569794256510545435482941114375983499261367189511934258789151466101, 134064360651460825504420195598588864509480887726663028848770115457218430984))

/-- Double-and-add state after an initial segment of the loop (`c2Win2`). -/
def c2Win2 : ECState :=
  (3947792125805211118682878211197663633402830143518108718375, (55558568217709757750526026671159184489663807836085791344410414179964889124625, 534083323842679460741338144051530250916034238644786350057192781513607193081, 46619471723018957729012487007172836694601201505304066177722247888232804499908), (58220129516345740104658085939204979704372874304485019263213110916114880269298, 48659681355241034802048209992901857764924236890931310190175219787879340740195, 13764743692197721649457582102511685318669221042208609579645037949626828662434))

/-- Double-and-add state after an initial segment of the loop (`c2Win3`). -/
def c2Win3 : ECState :=
  (919166981662905569812953055649451826094377353675, (102232525584697775235623054954925071420321493125607134035887370664225194349719, 11192585804268555928434231792560802846420663257603628662864659191624817678992, 53956696322584946068295418043699762249027859834855909136824779312411160277566), (38907716072922240743277806866630482071160100198156742669040555453668733827666, 101097541690123765299601691498693507512457894011521223291466032007921313700294, 62866678166897088783256888567792876037091357883293221977926145645352246049417))

/-- Double-and-add state after an initial segment of the loop (`c2Win4`). -/
def c2Win4 : ECState :=
  (214010239965958886270633213140408467989, (54227295427357335651531566722485390075281051433640089305335727104607957708119, 41987485387094899403585235625881361205882522346106725799702790661403324324613, 35687951135048177931184118830814396176445530854836591570416278433634166717698), (44971437462722952818336883272686985099022064077026483447244400621966193107566, 109413410969086495974316974631273868416736080200117837887757336752560114651340, 61983093711403907639549684895923913062842837596430507349655757607498795519580))

/-- Double-and-add state after an initial segment of the loop (`c2Win5`). -/
def c2Win5 : ECState :=
  (49828141919793301790634452630, (43398964170074692467815955251821949116692774788628263021638002827060475984809, 99544926028051683061671580284166082369989128835330953242402447882900403798090, 86769461218970483704251233241502804574446517897473950746450236949341002515954), (44335698935136125768237561720211678372572575886042882648996034514679449686089, 54432726067138904937515800255344064931842172771997522670352214568580794820486, 37599864140087733996352474966989664252620849462356811637189568392180986731229))

/-- Double-and-add state after an initial segment of the loop (`c2Win6`). -/
def c2Win6 : ECState :=
  (11601518355261837549, (75337563551479935330162030283038695589262053832774190068300473497357452750319, 53880687649672733856093978776294689963184146412771985777806412933287428648732, 62799338965038315792200387157210428487707719229955985756884909230254975792568), (76288159162728483930640008130380103342777036302569633548724480642391001064729, 5037577674903349598876796683074423043276035512036853550021480172465649380109, 55089415216914548738798241680917885590004663563031980093840797953365460716841))

/-- Double-and-add state after an initial segment of the loop (`c2Win7`). -/
def c2Win7 : ECState :=
  (2701188986, (97356794329087013596508681454246858418397493027833278830019181647697065548133, 53732337904604592509386514317543122291643152432276145675348277765059785168321, 827039295231664135812780870692030293938369164186148658735386319565741375053), (83375504654178125774699690043137750368413576389840551332477664297665739885290, 56121817432355494295641295341042046443947456272653384877215718922133023632212, 68127310840495974586129346553047789651680637483647533925968897819809629507575))

/-- Double-and-add state after an initial segment of the loop (`c2Win8`). -/
def c2Win8 : ECState :=
  (0, (25964973055838044867314263646945045242798687280452247865277553872734905293367, 66473067498257297040790293329491779604083616356612573311206866859915712451036, 20128263559208749888193545843783484209420998462169942614971262245999712679167), (112110000504613244556122720929754268600295145739284586045379966462635444353505, 59105069233057083950940258379233007282047948870482107073061054583959504649975, 95881190934077541080804587997411361176204157703082908276824958403060770625614))

/-- Double-and-add state after an initial segment of the loop (`oneWin1`). -/
def oneWin1 : ECState :=
  (0, (55066263022277343669578718895168534326250603453777594175500187360389116729240, 32670510020758816978083085130507043184471273380659243275938904335757337482424, 1), (635743120120718229479015275716769390067963833145960137873085447707634208509, 83127500062569794256510545435482941114375983499261367189511934258789151466101, 134064360651460825504420195598588864509480887726663028848770115457218430984))

/-- Double-and-add state after an initial segment of the loop (`oneWin2`). -/
def oneWin2 : ECState :=
  (0, (55066263022277343669578718895168534326250603453777594175500187360389116729240, 32670510020758816978083085130507043184471273380659243275938904335757337482424, 1), (58220129516345740104658085939204979704372874304485019263213110916114880269298, 48659681355241034802048209992901857764924236890931310190175219787879340740195, 13764743692197721649457582102511685318669221042208609579645037949626828662434))

/-- Double-and-add state after an initial segment of the loop (`oneWin3`). -/
def oneWin3 : ECState :=
  (0, (55066263022277343669578718895168534326250603453777594175500187360389116729240, 32670510020758816978083085130507043184471273380659243275938904335757337482424, 1), (38907716072922240743277806866630482071160100198156742669040555453668733827666, 101097541690123765299601691498693507512457894011521223291466032007921313700294, 62866678166897088783256888567792876037091357883293221977926145645352246049417))

/-- Double-and-add state after an initial segment of the loop (`oneWin4`). -/
def oneWin4 : ECState :=
  (0, (55066263022277343669578718895168534326250603453777594175500187360389116729240, 32670510020758816978083085130507043184471273380659243275938904335757337482424, 1), (44971437462722952818336883272686985099022064077026483447244400621966193107566, 109413410969086495974316974631273868416736080200117837887757336752560114651340, 61983093711403907639549684895923913062842837596430507349655757607498795519580))

/-- Double-and-add state after an initial segment of the loop (`oneWin5`). -/
def oneWin5 : ECState :=
  (0, (55066263022277343669578718895168534326250603453777594175500187360389116729240, 32670510020758816978083085130507043184471273380659243275938904335757337482424, 1), (44335698935136125768237561720211678372572575886042882648996034514679449686089, 54432726067138904937515800255344064931842172771997522670352214568580794820486, 37599864140087733996352474966989664252620849462356811637189568392180986731229))

/-- Double-and-add state after an initial segment of the loop (`oneWin6`). -/
def oneWin6 : ECState :=
  (0, (55066263022277343669578718895168534326250603453777594175500187360389116729240, 32670510020758816978083085130507043184471273380659243275938904335757337482424, 1), (76288159162728483930640008130380103342777036302569633548724480642391001064729, 5037577674903349598876796683074423043276035512036853550021480172465649380109, 55089415216914548738798241680917885590004663563031980093840797953365460716841))

/-- Double-and-add state after an initial segment of the loop (`oneWin7`). -/
def oneWin7 : ECState :=
  (0, (55066263022277343669578718895168534326250603453777594175500187360389116729240, 32670510020758816978083085130507043184471273380659243275938904335757337482424, 1), (83375504654178125774699690043137750368413576389840551332477664297665739885290, 56121817432355494295641295341042046443947456272653384877215718922133023632212, 68127310840495974586129346553047789651680637483647533925968897819809629507575))

/-- Double-and-add state after an initial segment of the loop (`oneWin8`). -/
def oneWin8 : ECState :=
  (0, (55066263022277343669578718895168534326250603453777594175500187360389116729240, 32670510020758816978083085130507043184471273380659243275938904335757337482424, 1), (112110000504613244556122720929754268600295145739284586045379966462635444353505, 59105069233057083950940258379233007282047948870482107073061054583959504649975, 95881190934077541080804587997411361176204157703082908276824958403060770625614))

/-! ### Helper lemmas -/

set_option maxRecDepth 40000
set_option maxHeartbeats 2000000

theorem natToBytesAux_length (f : Nat) : ∀ (k : Nat) (acc : List Nat),
    (natToBytesAux f k acc).length = f + acc.length := by
  induction f with
  | zero => intro k acc; simp [natToBytesAux]
  | succ f ih =>
    intro k acc
    show (natToBytesAux f (k / 256) (k % 256 :: acc)).length = f + 1 + acc.length
    rw [ih]
    simp only [List.length_cons]
    omega

theorem natToBytes_length (len k : Nat) : (natToBytes len k).length = len := by
  rw [natToBytes, natToBytesAux_length]
  rfl

theorem serialize_vec_uncompressed_length (pk : PublicKey) :
    (serialize_vec pk false).length = 65 := by
  simp [serialize_vec, natToBytes_length]

theorem keccak256_length (l : List Nat) : (keccak256 l).length = 32 := by
  simp [keccak256, laneToBytes]

theorem public_to_address_eq (p : Public) :
    public_to_address p = some ((keccak256 p).drop 12) := by
  simp [public_to_address, sliceFrom, copy_from_slice, Address.zero, keccak256_length]

theorem address_bytes_length (p : Public) : ((keccak256 p).drop 12).length = 20 := by
  simp [keccak256_length]

theorem toHexChars_length (bs : List Nat) : (toHexChars bs).length = 2 * bs.length := by
  induction bs with
  | nil => rfl
  | cons b t ih =>
    show (byteToHexChars b ++ toHexChars t).length = 2 * (b :: t).length
    rw [List.length_append, ih]
    simp [byteToHexChars]
    omega

theorem hexDigit_mem (m : Nat) (h : m < 16) : hexDigit m ∈ hexChars :=
  List.mem_map_of_mem hexDigit (List.mem_range.mpr h)

theorem byteToHexChars_mem (b : Nat) : ∀ c ∈ byteToHexChars b, c ∈ hexChars := by
  intro c hc
  simp only [byteToHexChars, List.mem_cons, List.not_mem_nil, or_false] at hc
  rcases hc with rfl | rfl
  · exact hexDigit_mem _ (Nat.mod_lt _ (by decide))
  · exact hexDigit_mem _ (Nat.mod_lt _ (by decide))

theorem toHexChars_mem (bs : List Nat) : ∀ c ∈ toHexChars bs, c ∈ hexChars := by
  induction bs with
  | nil => intro c hc; cases hc
  | cons b t ih =>
    intro c hc
    rcases List.mem_append.mp hc with h | h
    · exact byteToHexChars_mem b c h
    · exact ih c h

theorem hexChars_no_newline : ∀ c ∈ hexChars, c ≠ '\n' := by decide

theorem displayChars_eq (kp : KeyPair) :
    kp.displayChars = some (("secret:  ".toList ++ toHexChars kp.secret ++ ['\n']) ++
      (("public:  ".toList ++ toHexChars kp.public ++ ['\n']) ++
       ("address: ".toList ++ toHexChars ((keccak256 kp.public).drop 12)))) := by
  unfold KeyPair.displayChars KeyPair.address
  rw [public_to_address_eq]

/-! ### Evaluation of the scalar multiplications used by the test vector -/

theorem ecLoop_add (a b : Nat) (s : ECState) : ecLoop (a + b) s = ecLoop a (ecLoop b s) := by
  induction b generalizing s with
  | zero => rfl
  | succ b ih =>
    show ecLoop ((a + b) + 1) s = _
    rw [ecLoop]
    exact ih (ecStep s)

theorem ec_c2_w1 : ecLoop 32 (c2k, (0, 1, 0), (secp_gx, secp_gy, 1)) = c2Win1 := by decide
theorem ec_c2_w2 : ecLoop 32 c2Win1 = c2Win2 := by decide
theorem ec_c2_w3 : ecLoop 32 c2Win2 = c2Win3 := by decide
theorem ec_c2_w4 : ecLoop 32 c2Win3 = c2Win4 := by decide
theorem ec_c2_w5 : ecLoop 32 c2Win4 = c2Win5 := by decide
theorem ec_c2_w6 : ecLoop 32 c2Win5 = c2Win6 := by decide
theorem ec_c2_w7 : ecLoop 32 c2Win6 = c2Win7 := by decide
theorem ec_c2_w8 : ecLoop 32 c2Win7 = c2Win8 := by decide

theorem ecLoop_c2 : ecLoop 256 (c2k, (0, 1, 0), (secp_gx, secp_gy, 1)) = c2Win8 := by
  rw [show (256 : Nat) = 224 + 32 from rfl, ecLoop_add, ec_c2_w1,
      show (224 : Nat) = 192 + 32 from rfl, ecLoop_add, ec_c2_w2,
      show (192 : Nat) = 160 + 32 from rfl, ecLoop_add, ec_c2_w3,
      show (160 : Nat) = 128 + 32 from rfl, ecLoop_add, ec_c2_w4,
      show (128 : Nat) = 96 + 32 from rfl, ecLoop_add, ec_c2_w5,
      show (96 : Nat) = 64 + 32 from rfl, ecLoop_add, ec_c2_w6,
      show (64 : Nat) = 32 + 32 from rfl, ecLoop_add, ec_c2_w7]
  exact ec_c2_w8

theorem ecMulG_c2 : ecMulG c2k = some (c2x, c2y) := by
  unfold ecMulG
  rw [ecLoop_c2]
  decide

theorem ec_one_w1 : ecLoop 32 (1, (0, 1, 0), (secp_gx, secp_gy, 1)) = oneWin1 := by decide
theorem ec_one_w2 : ecLoop 32 oneWin1 = oneWin2 := by decide
theorem ec_one_w3 : ecLoop 32 oneWin2 = oneWin3 := by decide
theorem ec_one_w4 : ecLoop 32 oneWin3 = oneWin4 := by decide
theorem ec_one_w5 : ecLoop 32 oneWin4 = oneWin5 := by decide
theorem ec_one_w6 : ecLoop 32 oneWin5 = oneWin6 := by decide
theorem ec_one_w7 : ecLoop 32 oneWin6 = oneWin7 := by decide
theorem ec_one_w8 : ecLoop 32 oneWin7 = oneWin8 := by decide

theorem ecLoop_one : ecLoop 256 (1, (0, 1, 0), (secp_gx, secp_gy, 1)) = oneWin8 := by
  rw [show (256 : Nat) = 224 + 32 from rfl, ecLoop_add, ec_one_w1,
      show (224 : Nat) = 192 + 32 from rfl, ecLoop_add, ec_one_w2,
      show (192 : Nat) = 160 + 32 from rfl, ecLoop_add, ec_one_w3,
      show (160 : Nat) = 128 + 32 from rfl, ecLoop_add, ec_one_w4,
      show (128 : Nat) = 96 + 32 from rfl, ecLoop_add, ec_one_w5,
      show (96 : Nat) = 64 + 32 from rfl, ecLoop_add, ec_one_w6,
      show (64 : Nat) = 32 + 32 from rfl, ecLoop_add, ec_one_w7]
  exact ec_one_w8

theorem ecMulG_one : ecMulG 1 = some (secp_gx, secp_gy) := by
  unfold ecMulG
  rw [ecLoop_one]
  decide

/-! ### Evaluation of `from_secret` on the two concrete secrets -/

theorem from_secret_key_eval (s : SecretKey) (x y : Nat)
    (h1 : 1 ≤ s.scalar) (h2 : s.scalar < secp_n)
    (h3 : ecMulG s.scalar = some (x, y)) :
    PublicKey.from_secret_key s = Except.ok ⟨x, y⟩ := by
  unfold PublicKey.from_secret_key
  rw [if_pos ⟨h1, h2⟩, h3]

theorem from_secret_eval (s : Secret) (sk : SecretKey) (pk : PublicKey)
    (h1 : SecretKey.from_slice s = Except.ok sk)
    (h2 : PublicKey.from_secret_key sk = Except.ok pk) :
    KeyPair.from_secret s =
      some (Except.ok ⟨s, ((serialize_vec pk false).take 65).drop 1⟩) := by
  unfold KeyPair.from_secret
  simp only [h1, h2]
  have hlen := serialize_vec_uncompressed_length pk
  simp [sliceRange, copy_from_slice, Public.default, hlen]

theorem from_secret_c2 :
    KeyPair.from_secret c2secret = some (Except.ok ⟨c2secret, c2public⟩) := by
  rw [from_secret_eval c2secret ⟨c2k⟩ ⟨c2x, c2y⟩ (by decide)
      (from_secret_key_eval ⟨c2k⟩ c2x c2y (by decide) (by decide) ecMulG_c2)]
  decide

theorem from_secret_one :
    KeyPair.from_secret secretOne = some (Except.ok kpOne) := by
  rw [from_secret_eval secretOne ⟨1⟩ ⟨secp_gx, secp_gy⟩ (by decide)
      (from_secret_key_eval ⟨1⟩ secp_gx secp_gy (by decide) (by decide) ecMulG_one)]
  decide

theorem pub_to_addr_c2 : public_to_address c2public = some c2address := by
  rw [public_to_address_eq]
  decide

/-! ### The claims, C1 through C10 -/

/-- C1: for every 64-byte public key, `public_to_address` succeeds (it has no
failure or panic path) and returns exactly the final 20 bytes — bytes 12
through 31, 0-indexed — of the 32-byte Keccak-256 digest of the input; the
leading 12 digest bytes are discarded. -/
theorem C1_public_to_address_keccak_tail (p : Public) (_hp : p.length = 64) :
    public_to_address p = some ((keccak256 p).drop 12) ∧
    (keccak256 p).length = 32 ∧
    ((keccak256 p).drop 12).length = 20 ∧
    ((keccak256 p).take 12).length = 12 ∧
    (keccak256 p).take 12 ++ (keccak256 p).drop 12 = keccak256 p := by
  refine ⟨public_to_address_eq p, keccak256_length p, address_bytes_length p, ?_,
    List.take_append_drop _ _⟩
  rw [List.length_take, keccak256_length]
  omega

/-- Witness for C1 at the all-zero 64-byte public key. -/
theorem C1_witness :
    (List.replicate 64 0 : Public).length = 64 ∧
    (public_to_address (List.replicate 64 0) =
        some ((keccak256 (List.replicate 64 0)).drop 12) ∧
      (keccak256 (List.replicate 64 0)).length = 32 ∧
      ((keccak256 (List.replicate 64 0)).drop 12).length = 20 ∧
      ((keccak256 (List.replicate 64 0)).take 12).length = 12 ∧
      (keccak256 (List.replicate 64 0)).take 12 ++
          (keccak256 (List.replicate 64 0)).drop 12 = keccak256 (List.replicate 64 0)) :=
  ⟨by decide, C1_public_to_address_keccak_tail (List.replicate 64 0) (by decide)⟩

/-- C2 (counterexample): the derived address for the test secret can never
equal the 39-character hex value 5b073e9233944b5e729e46d618f0d8edf3d9c34 that
the claim asserts: every derived address has 20 bytes and renders as exactly
40 hex characters. -/
theorem C2_counterexample :
    ¬ ∃ kp a, KeyPair.from_secret c2secret = some (Except.ok kp) ∧
      kp.address = some a ∧
      toHex a = "5b073e9233944b5e729e46d618f0d8edf3d9c34" := by
  rintro ⟨kp, a, -, ha, hhex⟩
  unfold KeyPair.address at ha
  rw [public_to_address_eq] at ha
  have hXa := Option.some.inj ha
  have hlen : a.length = 20 := by rw [← hXa]; exact address_bytes_length kp.public
  have h40 : (toHexChars a).length = 40 := by rw [toHexChars_length, hlen]
  have hdata : toHexChars a = "5b073e9233944b5e729e46d618f0d8edf3d9c34".data :=
    congrArg String.data hhex
  have h39 : (toHexChars a).length = 39 := by rw [hdata]; decide
  omega

/-- C2 (amended): for the test secret a100df7a... the derivation succeeds, the
derived public key equals the expected 64 bytes (hex 8ce0db0b...43a4), and the
derived address equals hex 5b073e9233944b5e729e46d618f0d8edf3d9c34a — the
40-character value used by the repository test — a 20-byte address. -/
theorem C2_test_vector :
    KeyPair.from_secret c2secret = some (Except.ok ⟨c2secret, c2public⟩) ∧
    public_to_address c2public = some c2address ∧
    toHex c2secret = "a100df7a048e50ed308ea696dc600215098141cb391e9527329df289f9383f65" ∧
    toHex c2public = "8ce0db0b0359ffc5866ba61903cc2518c3675ef2cf380a7e54bde7ea20e6fa1ab45b7617346cd11b7610001ee6ae5b0155c41cad9527cbcdff44ec67848943a4" ∧
    toHex c2address = "5b073e9233944b5e729e46d618f0d8edf3d9c34a" ∧
    c2address.length = 20 :=
  ⟨from_secret_c2, pub_to_addr_c2, by decide, by decide, by decide, by decide⟩

/-- C3: the canonical text of every key pair is exactly three lines — a
secret line with 64 lower-case hex characters, a public line with 128, and an
address line with 40 — joined by single newlines, with no 0x prefixes and no
trailing newline (the trailing hex contains no newline character). -/
theorem C3_display_format (kp : KeyPair) (h1 : kp.secret.length = 32)
    (h2 : kp.public.length = 64) :
    ∃ a, KeyPair.address kp = some a ∧
      KeyPair.display kp = some (String.mk
        (("secret:  ".toList ++ toHexChars kp.secret ++ ['\n']) ++
         (("public:  ".toList ++ toHexChars kp.public ++ ['\n']) ++
          ("address: ".toList ++ toHexChars a)))) ∧
      (toHexChars kp.secret).length = 64 ∧
      (toHexChars kp.public).length = 128 ∧
      (toHexChars a).length = 40 ∧
      (∀ c ∈ toHexChars kp.secret, c ∈ hexChars) ∧
      (∀ c ∈ toHexChars kp.public, c ∈ hexChars) ∧
      (∀ c ∈ toHexChars a, c ∈ hexChars) ∧
      (∀ c ∈ toHexChars a, c ≠ '\n') := by
  refine ⟨(keccak256 kp.public).drop 12, public_to_address_eq kp.public, ?_, ?_, ?_, ?_,
    toHexChars_mem _, toHexChars_mem _, toHexChars_mem _, ?_⟩
  · simp [KeyPair.display, displayChars_eq]
  · rw [toHexChars_length, h1]
  · rw [toHexChars_length, h2]
  · rw [toHexChars_length, address_bytes_length]
  · intro c hc
    exact hexChars_no_newline c (toHexChars_mem _ c hc)

/-- Witness for C3 at the concrete key pair `kpW`. -/
theorem C3_witness :
    kpW.secret.length = 32 ∧ kpW.public.length = 64 ∧
    (∃ a, KeyPair.address kpW = some a ∧
      KeyPair.display kpW = some (String.mk
        (("secret:  ".toList ++ toHexChars kpW.secret ++ ['\n']) ++
         (("public:  ".toList ++ toHexChars kpW.public ++ ['\n']) ++
          ("address: ".toList ++ toHexChars a)))) ∧
      (toHexChars kpW.secret).length = 64 ∧
      (toHexChars kpW.public).length = 128 ∧
      (toHexChars a).length = 40 ∧
      (∀ c ∈ toHexChars kpW.secret, c ∈ hexChars) ∧
      (∀ c ∈ toHexChars kpW.public, c ∈ hexChars) ∧
      (∀ c ∈ toHexChars a, c ∈ hexChars) ∧
      (∀ c ∈ toHexChars a, c ≠ '\n')) :=
  ⟨by decide, by decide, C3_display_format kpW (by decide) (by decide)⟩

/-- C4: a successful `from_secret` stores the input secret unchanged and
stores as public key exactly bytes 1 through 64 of the 65-byte uncompressed
serialization of the derived curve point (the tag byte is stripped). -/
theorem C4_from_secret_packaging (s : Secret) (kp : KeyPair)
    (h : KeyPair.from_secret s = some (Except.ok kp)) :
    kp.secret = s ∧
    ∃ sk pk, SecretKey.from_slice s = Except.ok sk ∧
      PublicKey.from_secret_key sk = Except.ok pk ∧
      (serialize_vec pk false).length = 65 ∧
      kp.public = ((serialize_vec pk false).take 65).drop 1 := by
  cases hsk : SecretKey.from_slice s with
  | error e =>
    rw [KeyPair.from_secret, hsk] at h
    simp at h
  | ok sk =>
    cases hpk : PublicKey.from_secret_key sk with
    | error e =>
      rw [KeyPair.from_secret, hsk] at h
      simp only at h
      rw [hpk] at h
      simp at h
    | ok pk =>
      rw [from_secret_eval s sk pk hsk hpk] at h
      have hkp := Except.ok.inj (Option.some.inj h)
      subst hkp
      refine ⟨rfl, sk, pk, ?_, ?_, serialize_vec_uncompressed_length pk, rfl⟩
      · simp [hsk]
      · simp [hpk]

/-- Witness for C4 at the secret with scalar value 1. -/
theorem C4_witness :
    KeyPair.from_secret secretOne = some (Except.ok kpOne) ∧
    (kpOne.secret = secretOne ∧
      ∃ sk pk, SecretKey.from_slice secretOne = Except.ok sk ∧
        PublicKey.from_secret_key sk = Except.ok pk ∧
        (serialize_vec pk false).length = 65 ∧
        kpOne.public = ((serialize_vec pk false).take 65).drop 1) :=
  ⟨from_secret_one, C4_from_secret_packaging secretOne kpOne from_secret_one⟩

/-- C5: the address accessor recomputes `public_to_address` on the stored
public key at every call — it is a pure function of the public field alone,
never a cached value, so key pairs with equal public keys have equal
addresses and the address can never desynchronize from the public key. -/
theorem C5_address_recomputed (kp1 kp2 : KeyPair) (h : kp1.public = kp2.public) :
    kp1.address = public_to_address kp1.public ∧ kp1.address = kp2.address := by
  constructor
  · rfl
  · unfold KeyPair.address
    rw [h]

/-- Witness for C5 at the key pair `kpOne`. -/
theorem C5_witness :
    kpOne.public = kpOne.public ∧
    (kpOne.address = public_to_address kpOne.public ∧ kpOne.address = kpOne.address) :=
  ⟨rfl, C5_address_recomputed kpOne kpOne rfl⟩

/-- C6: when the scalar validation inside `from_secret` rejects the secret
(value zero or at least the group order), `from_secret` surfaces the error to
the caller — it returns an error value, does not panic, and produces no
key pair. -/
theorem C6_invalid_scalar_error (s : Secret)
    (h : bytesToNat s = 0 ∨ secp_n ≤ bytesToNat s) :
    KeyPair.from_secret s = some (Except.error Error.InvalidSecret) := by
  have hsk : SecretKey.from_slice s = Except.error Error.InvalidSecret := by
    unfold SecretKey.from_slice
    rw [if_neg]
    rintro ⟨-, h1, h2⟩
    rcases h with h | h
    · omega
    · omega
  rw [KeyPair.from_secret, hsk]

/-- Witness for C6 at the all-zero 32-byte secret. -/
theorem C6_witness :
    (bytesToNat (List.replicate 32 0) = 0 ∨
      secp_n ≤ bytesToNat (List.replicate 32 0)) ∧
    KeyPair.from_secret (List.replicate 32 0) =
      some (Except.error Error.InvalidSecret) :=
  ⟨Or.inl (by decide), C6_invalid_scalar_error _ (Or.inl (by decide))⟩

/-- C7: a slice whose length differs from 32 makes `from_secret_slice` fail
with `InvalidSecret` — no panic, no partially built key pair — and
`from_secret_slice` succeeds exactly when the slice imports as a secret on
which `from_secret` then succeeds. -/
theorem C7_from_secret_slice_spec (s : List Nat) :
    (s.length ≠ 32 →
      KeyPair.from_secret_slice s = some (Except.error Error.InvalidSecret)) ∧
    (∀ kp, KeyPair.from_secret_slice s = some (Except.ok kp) ↔
      ∃ sec, Secret.import_key s = Except.ok sec ∧
        KeyPair.from_secret sec = some (Except.ok kp)) := by
  constructor
  · intro hlen
    have hsk : SecretKey.from_slice s = Except.error Error.InvalidSecret := by
      unfold SecretKey.from_slice
      rw [if_neg]
      rintro ⟨h32, -⟩
      exact hlen h32
    have himp : Secret.import_key s = Except.error Error.InvalidSecret := by
      rw [Secret.import_key, hsk]
    rw [KeyPair.from_secret_slice, himp]
  · intro kp
    constructor
    · intro h
      cases himp : Secret.import_key s with
      | error e =>
        rw [KeyPair.from_secret_slice, himp] at h
        simp at h
      | ok sec =>
        refine ⟨sec, rfl, ?_⟩
        rw [KeyPair.from_secret_slice, himp] at h
        exact h
    · rintro ⟨sec, hsec, hfs⟩
      rw [KeyPair.from_secret_slice, hsec]
      exact hfs

/-- Witness for C7 at the 1-byte slice. -/
theorem C7_witness :
    (([0] : List Nat).length ≠ 32) ∧
    KeyPair.from_secret_slice [0] = some (Except.error Error.InvalidSecret) :=
  ⟨by decide, (C7_from_secret_slice_spec [0]).1 (by decide)⟩

/-- C8: the trusted-import constructor `from_keypair` always succeeds — it
validates nothing and never checks that the secret and the point are linked:
for every scalar and every point it returns the key pair of the scalar's
bytes and bytes 1 through 64 of the point's uncompressed serialization. -/
theorem C8_from_keypair_total (sec : SecretKey) (publ : PublicKey) :
    KeyPair.from_keypair sec publ =
      some ⟨Secret.from_key sec, ((serialize_vec publ false).take 65).drop 1⟩ := by
  unfold KeyPair.from_keypair
  have hlen := serialize_vec_uncompressed_length publ
  simp [sliceRange, copy_from_slice, Public.default, hlen]

/-- C9: derivation is deterministic — `from_secret` is a pure function of the
secret bytes, so equal secrets give equal results: identical key pairs,
public keys, addresses and display text. -/
theorem C9_from_secret_deterministic (s1 s2 : Secret) (hs : s1 = s2)
    (kp1 kp2 : KeyPair)
    (h1 : KeyPair.from_secret s1 = some (Except.ok kp1))
    (h2 : KeyPair.from_secret s2 = some (Except.ok kp2)) :
    kp1 = kp2 ∧ kp1.public = kp2.public ∧ kp1.address = kp2.address ∧
      KeyPair.display kp1 = KeyPair.display kp2 := by
  subst hs
  rw [h1] at h2
  have hkp := Except.ok.inj (Option.some.inj h2)
  subst hkp
  exact ⟨rfl, rfl, rfl, rfl⟩

/-- Witness for C9 at the secret with scalar value 1. -/
theorem C9_witness :
    secretOne = secretOne ∧
    KeyPair.from_secret secretOne = some (Except.ok kpOne) ∧
    (kpOne = kpOne ∧ kpOne.public = kpOne.public ∧ kpOne.address = kpOne.address ∧
      KeyPair.display kpOne = KeyPair.display kpOne) :=
  ⟨rfl, from_secret_one,
    C9_from_secret_deterministic secretOne secretOne rfl kpOne kpOne
      from_secret_one from_secret_one⟩

/-- C10: the address depends only on the public key: key pairs with equal
public keys have equal addresses even when their secrets differ, and the
display output renders its address line from the very same stored public
key. -/
theorem C10_address_only_from_public (kp1 kp2 : KeyPair)
    (h : kp1.public = kp2.public) :
    kp1.address = kp2.address ∧
    ∃ a, public_to_address kp1.public = some a ∧
      kp1.displayChars = some (("secret:  ".toList ++ toHexChars kp1.secret ++ ['\n']) ++
        (("public:  ".toList ++ toHexChars kp1.public ++ ['\n']) ++
         ("address: ".toList ++ toHexChars a))) := by
  refine ⟨?_, (keccak256 kp1.public).drop 12, public_to_address_eq _, displayChars_eq kp1⟩
  unfold KeyPair.address
  rw [h]

/-- Witness for C10 at two key pairs sharing a public key but not a secret. -/
theorem C10_witness :
    kpA.public = kpB.public ∧ kpA.secret ≠ kpB.secret ∧
    (kpA.address = kpB.address ∧
      ∃ a, public_to_address kpA.public = some a ∧
        kpA.displayChars = some (("secret:  ".toList ++ toHexChars kpA.secret ++ ['\n']) ++
          (("public:  ".toList ++ toHexChars kpA.public ++ ['\n']) ++
           ("address: ".toList ++ toHexChars a)))) :=
  ⟨rfl, by decide, C10_address_only_from_public kpA kpB rfl⟩

end ParityCrypto
